import Mathlib

/-!
# AppMain.cpp: a shallow embedding

`src/AppMain.cpp` opens a GLFW window, uploads one fixed mesh, builds one
shader program and draws the mesh every frame until the window is asked to
close.

The program is a sequence of library calls over three globals (`gWindow`,
`gMesh`, `gProgramId`).  The embedding is state passing over a `Machine`:

* the globals are fields of the machine;
* the two pieces of library state that the claims read back, the close flag
  of a window and the viewport rectangle, are fields of the machine; the
  calls that read or write them (`glfwWindowShouldClose`,
  `glfwSetWindowShouldClose`, `glViewport`) and the key query `glfwGetKey`
  are functions on the machine;
* every other library call is recorded, with its arguments, in `calls`, in
  program order;
* `trace` records the calls that `main` itself makes to the user-defined
  functions and to `glfwPollEvents`;
* whatever the libraries and the outside world decide (whether a window
  could be created, the handles that are generated, the key state, the
  events delivered while polling) is read from an `Env`;
* what a draw call reads is decided by replaying the call log on a `GLState`:
  the buffer stores, the bindings and the attribute pointers the calls before
  it have set up.

A `GLfloat` is an IEEE 754 binary32 datum; literals, conversions and the one
division of the program round to nearest, ties to even.  `sizeof` values are
the ones of the target platform.
-/

namespace AppMain

/-! ## Platform constants -/

/-- The value of `sizeof(float)` and `sizeof(GLfloat)`. -/
def sizeof_float : Nat := 4

/-- The value of `sizeof(GLushort)`. -/
def sizeof_GLushort : Nat := 2

/-- The value of `sizeof(int)`. -/
def sizeof_int : Nat := 4

/-- The value of `EXIT_SUCCESS` from `<cstdlib>`. -/
def EXIT_SUCCESS : Int := 0

/-- The value of `EXIT_FAILURE` from `<cstdlib>`. -/
def EXIT_FAILURE : Int := 1

/-- The implicit C++ conversion from `int` to `bool`: zero is `false`,
every other value is `true`. -/
def boolOfInt (i : Int) : Bool := i != 0

/-! ## Single-precision floats -/

/-- An IEEE 754 binary32 datum.  `finite neg mant exp` is the number
`± mant * 2 ^ exp`, with `2 ^ 23 ≤ mant < 2 ^ 24` and `-149 ≤ exp ≤ 104` when
normal, and `mant < 2 ^ 23` and `exp = -149` when subnormal or zero. -/
inductive GLfloat where
  | finite (neg : Bool) (mant : Nat) (exp : Int)
  | inf (neg : Bool)
  | nan
deriving DecidableEq, Repr

namespace GLfloat

/-- The quotient `num / den` rounded to the nearest natural number, a tie to
the even one. -/
def roundNearestEven (num den : Nat) : Nat :=
  let q := num / den
  let r := num % den
  if 2 * r < den then q
  else if den < 2 * r then q + 1
  else if q % 2 = 0 then q else q + 1

/-- The number of binary digits of `n`, for `n ≤ fuel`. -/
def bitLength : Nat → Nat → Nat
  | 0, _ => 0
  | fuel + 1, n => if n = 0 then 0 else bitLength fuel (n / 2) + 1

/-- The exponent of the leading binary digit of a positive `n`. -/
def floorLog2 (n : Nat) : Nat := bitLength n n - 1

/-- The binary32 datum nearest to `± num / den`, ties to even: the exponent
`e` of the leading digit of the quotient is found, the quotient is rounded to
a multiple of `2 ^ (e - 23)` (of `2 ^ (-149)` in the subnormal range), and a
result beyond the largest finite number is an infinity. -/
def ofRatio (neg : Bool) (num den : Nat) : GLfloat :=
  if den = 0 then nan
  else if num = 0 then finite neg 0 (-149)
  else
    let e0 : Int := (floorLog2 num : Int) - (floorLog2 den : Int)
    let below : Bool :=
      if 0 ≤ e0 then decide (num < den * 2 ^ e0.toNat) else decide (num * 2 ^ (-e0).toNat < den)
    let e : Int := if below then e0 - 1 else e0
    let x : Int := max (e - 23) (-149)
    let m : Nat :=
      if 0 ≤ x then roundNearestEven num (den * 2 ^ x.toNat)
      else roundNearestEven (num * 2 ^ (-x).toNat) den
    let m1 : Nat := if m = 2 ^ 24 then 2 ^ 23 else m
    let x1 : Int := if m = 2 ^ 24 then x + 1 else x
    if 104 < x1 then inf neg else finite neg m1 x1

/-- The value of a float literal that denotes `num / den`, such as `0.1f` for
`lit 1 10` and `-0.5f` for `lit (-1) 2`. -/
def lit (num : Int) (den : Nat) : GLfloat := ofRatio (decide (num < 0)) num.natAbs den

/-- The conversion `(GLfloat)i` of an `int`. -/
def ofInt (i : Int) : GLfloat := ofRatio (decide (i < 0)) i.natAbs 1

/-- The division of two floats. -/
def div : GLfloat → GLfloat → GLfloat
  | finite s m e, finite t n f =>
    if n = 0 then (if m = 0 then nan else inf (xor s t))
    else if 0 ≤ e - f then ofRatio (xor s t) (m * 2 ^ (e - f).toNat) n
    else ofRatio (xor s t) m (n * 2 ^ (f - e).toNat)
  | finite s _ _, inf t => finite (xor s t) 0 (-149)
  | inf s, finite t _ _ => inf (xor s t)
  | inf _, inf _ => nan
  | nan, _ => nan
  | _, nan => nan

/-- The rational number a finite float is. -/
def toRat : GLfloat → Option ℚ
  | finite neg m e => some ((if neg then -1 else 1) * (m : ℚ) * (2 : ℚ) ^ e)
  | _ => none

end GLfloat

/-! ## Constants of the unnamed namespace (lines 21-25) -/

def WINDOW_TITLE : String := "Week 3 Milestone"

def WINDOW_WIDTH : Int := 800

def WINDOW_HEIGHT : Int := 600

/-- The struct `GLMesh` (lines 28-33). -/
structure GLMesh where
  vao : Nat
  vbos : Nat × Nat
  nIndices : Nat
deriving DecidableEq, Repr

/-! ## Shader sources (lines 55-84)

The `GLSL` macro prepends the version line and turns the source into a string
literal; comments are gone and each run of white space is one blank. -/

def vertexShaderSource : String :=
  "#version 440 core \nlayout(location = 0) in vec3 position; layout(location = 1) in vec4 color; out vec4 vertexColor; uniform mat4 model; uniform mat4 view; uniform mat4 projection; void main() \x7b gl_Position = projection * view * model * vec4(position, 1.0f); vertexColor = color; \x7d"

def fragmentShaderSource : String :=
  "#version 440 core \nin vec4 vertexColor; out vec4 fragmentColor; void main() \x7b fragmentColor = vec4(vertexColor); \x7d"

/-! ## Library vocabulary -/

/-- The GL and GLFW enumerators the program names. -/
inductive GLenum where
  | GLFW_CONTEXT_VERSION_MAJOR
  | GLFW_CONTEXT_VERSION_MINOR
  | GLFW_OPENGL_PROFILE
  | GLFW_OPENGL_CORE_PROFILE
  | GL_VERSION
  | GL_DEPTH_TEST
  | GL_FRONT_AND_BACK
  | GL_LINE
  | GL_TRIANGLES
  | GL_UNSIGNED_SHORT
  | GL_FLOAT
  | GL_ARRAY_BUFFER
  | GL_ELEMENT_ARRAY_BUFFER
  | GL_STATIC_DRAW
  | GL_VERTEX_SHADER
  | GL_FRAGMENT_SHADER
deriving DecidableEq, Repr

/-- The bits or-ed into the argument of `glClear`. -/
inductive ClearBit where
  | GL_COLOR_BUFFER_BIT
  | GL_DEPTH_BUFFER_BIT
deriving DecidableEq, Repr

/-- A three-component GLM vector. -/
structure Vec3 where
  x : GLfloat
  y : GLfloat
  z : GLfloat
deriving DecidableEq

/-- The 4x4 matrices the program builds, as the GLM expressions that build
them. -/
inductive Mat4 where
  | scale (v : Vec3)
  | rotate (angle : GLfloat) (axis : Vec3)
  | translate (v : Vec3)
  | perspective (fovy : GLfloat) (aspect : GLfloat) (zNear : GLfloat) (zFar : GLfloat)
  | mul (a : Mat4) (b : Mat4)
deriving DecidableEq

/-- The array handed to `glBufferData`. -/
inductive BufferPayload where
  | floats (data : List GLfloat)
  | ushorts (data : List Nat)
deriving DecidableEq

/-- One library call with its arguments.  A window handle is `none` for a
null pointer. -/
inductive Call where
  | cout (text : String)
  | glfwInit
  | glfwWindowHint (hint : GLenum) (value : Sum Int GLenum)
  | glfwCreateWindow (width : Int) (height : Int) (title : String)
  | glfwTerminate
  | glfwMakeContextCurrent (window : Option Nat)
  | glfwSetFramebufferSizeCallback (window : Option Nat)
  | glewInit
  | glGetString (name : GLenum)
  | glfwPollEvents
  | glfwSwapBuffers (window : Option Nat)
  | glEnable (cap : GLenum)
  | glClearColor (r : GLfloat) (g : GLfloat) (b : GLfloat) (a : GLfloat)
  | glClear (mask : List ClearBit)
  | glPolygonMode (face : GLenum) (mode : GLenum)
  | glUseProgram (program : Nat)
  | glGetUniformLocation (program : Nat) (name : String)
  | glUniformMatrix4fv (location : Int) (count : Nat) (transpose : Bool) (value : Mat4)
  | glBindVertexArray (array : Nat)
  | glDrawElements (mode : GLenum) (count : Nat) (type : GLenum) (offset : Nat)
  | glGenVertexArrays (n : Nat)
  | glGenBuffers (n : Nat)
  | glBindBuffer (target : GLenum) (buffer : Nat)
  | glBufferData (target : GLenum) (size : Nat) (data : BufferPayload) (usage : GLenum)
  | glVertexAttribPointer (index : Nat) (size : Nat) (type : GLenum) (normalized : Bool)
      (stride : Nat) (offset : Nat)
  | glEnableVertexAttribArray (index : Nat)
  | glDeleteVertexArrays (n : Nat) (array : Nat)
  | glDeleteBuffers (n : Nat) (buffers : Nat × Nat)
  | glCreateProgram
  | glCreateShader (type : GLenum)
  | glShaderSource (shader : Nat) (count : Nat) (source : String)
  | glCompileShader (shader : Nat)
  | glAttachShader (program : Nat) (shader : Nat)
  | glLinkProgram (program : Nat)
  | glDeleteProgram (program : Nat)
deriving DecidableEq

/-- The calls `main` makes that the lifecycle of the program is stated in. -/
inductive Op where
  | bootstrap
  | createMesh
  | createShaderProgram
  | processInput
  | render
  | pollEvents
  | destroyMesh
  | destroyShaderProgram
deriving DecidableEq, Repr

/-- The viewport rectangle of the GL context. -/
structure Viewport where
  x : Int
  y : Int
  width : Int
  height : Int
deriving DecidableEq, Repr

/-- What the libraries and the outside world decide. -/
structure Env where
  /-- The result of `glfwCreateWindow`: a handle, or `none` for `NULL`. -/
  window : Option Nat
  /-- Whether `glewInit` returns `GLEW_OK`. -/
  glewOk : Bool
  /-- The string `glGetString(GL_VERSION)` returns. -/
  glVersion : String
  /-- The name `glGenVertexArrays` generates. -/
  vao : Nat
  /-- The names `glGenBuffers` generates. -/
  vbos : Nat × Nat
  /-- The name `glCreateProgram` returns. -/
  program : Nat
  /-- The name `glCreateShader(GL_VERTEX_SHADER)` returns. -/
  vertexShader : Nat
  /-- The name `glCreateShader(GL_FRAGMENT_SHADER)` returns. -/
  fragmentShader : Nat
  /-- Whether a source compiles as a shader of the given stage. -/
  compiles : GLenum → String → Bool
  /-- Whether the program made of the two sources links. -/
  links : String → String → Bool
  /-- The result of `glGetUniformLocation`. -/
  uniformLocation : Nat → String → Int
  /-- Whether `glfwGetKey(window, GLFW_KEY_ESCAPE)` is `GLFW_PRESS` in the
  frame of the given number. -/
  escapePressed : Nat → Bool
  /-- Whether the `glfwPollEvents` call of the given number delivers a close
  request of the window system. -/
  closeRequested : Nat → Bool
  /-- The framebuffer size that the `glfwPollEvents` call of the given number
  reports, if it reports one. -/
  resized : Nat → Option (Int × Int)

/-- The state of the program and of the libraries it talks to. -/
structure Machine where
  /-- The global `gWindow`. -/
  gWindow : Option Nat
  /-- The global `gMesh`. -/
  gMesh : GLMesh
  /-- The global `gProgramId`. -/
  gProgramId : Nat
  /-- The close flag GLFW keeps for each window handle. -/
  closeFlag : Nat → Bool
  /-- The window on which `UResizeWindow` is registered as the framebuffer
  size callback. -/
  resizeCallback : Option Nat
  /-- The viewport of the GL context. -/
  viewport : Viewport
  /-- The number of `glfwPollEvents` calls made so far. -/
  frame : Nat
  /-- The other library calls made so far, oldest first. -/
  calls : List Call
  /-- The calls `main` has made so far, oldest first. -/
  trace : List Op

namespace Machine

/-- The state at entry of `main`: the globals of lines 35-37 are
zero-initialised, no call has been made. -/
def start : Machine :=
  { gWindow := none
    gMesh := { vao := 0, vbos := (0, 0), nIndices := 0 }
    gProgramId := 0
    closeFlag := fun _ => false
    resizeCallback := none
    viewport := { x := 0, y := 0, width := 0, height := 0 }
    frame := 0
    calls := []
    trace := [] }

/-- Record a library call. -/
def call (m : Machine) (c : Call) : Machine :=
  { m with calls := m.calls ++ [c] }

/-- Record a call made by `main`. -/
def record (m : Machine) (o : Op) : Machine :=
  { m with trace := m.trace ++ [o] }

end Machine

/-! ## Library calls with an effect on the modelled state -/

/-- The call `glViewport(x, y, width, height)`. -/
def glViewport (x y width height : Int) (m : Machine) : Machine :=
  { m with viewport := { x := x, y := y, width := width, height := height } }

/-- The call `glfwWindowShouldClose(window)`: the close flag of the window;
`none` when the handle is null, where GLFW has no window to read. -/
def glfwWindowShouldClose (window : Option Nat) (m : Machine) : Option Bool :=
  window.map m.closeFlag

/-- The call `glfwSetWindowShouldClose(window, value)`. -/
def glfwSetWindowShouldClose (window : Option Nat) (value : Bool) (m : Machine) : Machine :=
  match window with
  | none => m
  | some h => { m with closeFlag := Function.update m.closeFlag h value }

/-- The test `glfwGetKey(window, GLFW_KEY_ESCAPE) == GLFW_PRESS`: the state
of the Escape key in the current frame. -/
def escapeIsPressed (env : Env) (_window : Option Nat) (m : Machine) : Bool :=
  env.escapePressed m.frame

/-! ## The user-defined functions -/

/-- The function `UResizeWindow` (lines 157-160). -/
def UResizeWindow (_window : Option Nat) (width height : Int) (m : Machine) : Machine :=
  glViewport 0 0 width height m

/-- The function `UProcessInput` (lines 149-153).  The handle is not null
when `main` calls it: the loop condition has read the window's flag first. -/
def UProcessInput (env : Env) (window : Option Nat) (m : Machine) : Machine :=
  if escapeIsPressed env window m then
    glfwSetWindowShouldClose window true m
  else
    m

/-- The part of `glfwPollEvents()` that delivers a close request of the window
system: it sets the close flag of the window GLFW created. -/
def deliverClose (env : Env) (m : Machine) : Machine :=
  if env.closeRequested m.frame then glfwSetWindowShouldClose env.window true m else m

/-- The part of `glfwPollEvents()` that delivers a framebuffer size event: it
runs the callback registered in line 137, `UResizeWindow`. -/
def deliverResize (env : Env) (m : Machine) : Machine :=
  match m.resizeCallback, env.resized m.frame with
  | some h, some (w, ht) => UResizeWindow (some h) w ht m
  | _, _ => m

/-- The call `glfwPollEvents()`: the pending events are delivered and the
frame ends. -/
def glfwPollEvents (env : Env) (m : Machine) : Machine :=
  let m := deliverClose env m
  let m := deliverResize env m
  { m with frame := m.frame + 1, calls := m.calls ++ [Call.glfwPollEvents] }

/-- The function `UInitialize` (lines 118-145); the out-parameter `window`
is `&gWindow`.  The `return -1` of line 134 is converted to `bool`. -/
def UInitialize (env : Env) (m : Machine) : Bool × Machine :=
  let m := m.call Call.glfwInit
  let m := m.call (Call.glfwWindowHint GLenum.GLFW_CONTEXT_VERSION_MAJOR (Sum.inl 4))
  let m := m.call (Call.glfwWindowHint GLenum.GLFW_CONTEXT_VERSION_MINOR (Sum.inl 5))
  let m := m.call (Call.glfwWindowHint GLenum.GLFW_OPENGL_PROFILE
    (Sum.inr GLenum.GLFW_OPENGL_CORE_PROFILE))
  let m := m.call (Call.glfwCreateWindow WINDOW_WIDTH WINDOW_HEIGHT WINDOW_TITLE)
  let m := { m with gWindow := env.window }
  match m.gWindow with
  | none =>
    let m := m.call (Call.cout "Failed to create GLFW window\n")
    let m := m.call Call.glfwTerminate
    (boolOfInt (-1), m)
  | some h =>
    let m := m.call (Call.glfwMakeContextCurrent (some h))
    let m := m.call (Call.glfwSetFramebufferSizeCallback (some h))
    let m := { m with resizeCallback := some h }
    let m := m.call Call.glewInit
    let m := if !env.glewOk then m.call (Call.cout "Failed to initalize GLEW\n") else m
    let m := m.call (Call.glGetString GLenum.GL_VERSION)
    let m := m.call (Call.cout ("INFO: OpenGL Version: " ++ env.glVersion ++ "\n"))
    (true, m)

/-- The array `verts` of `UCreateMesh` (lines 210-217). -/
def verts : List GLfloat :=
  [ GLfloat.lit (-1) 2, GLfloat.lit (-1) 2, GLfloat.lit 0 1,
      GLfloat.lit 1 1, GLfloat.lit 1 1, GLfloat.lit 1 1, GLfloat.lit 1 1,
    GLfloat.lit 0 1, GLfloat.lit 1 2, GLfloat.lit (-1) 2,
      GLfloat.lit 1 1, GLfloat.lit 0 1, GLfloat.lit 0 1, GLfloat.lit 1 1,
    GLfloat.lit 1 2, GLfloat.lit (-1) 2, GLfloat.lit 0 1,
      GLfloat.lit 1 1, GLfloat.lit 1 1, GLfloat.lit 1 1, GLfloat.lit 1 1,
    GLfloat.lit (-1) 2, GLfloat.lit (-1) 2, GLfloat.lit (-1) 1,
      GLfloat.lit 1 1, GLfloat.lit 1 1, GLfloat.lit 1 1, GLfloat.lit 1 1,
    GLfloat.lit 1 2, GLfloat.lit (-1) 2, GLfloat.lit (-1) 1,
      GLfloat.lit 1 1, GLfloat.lit 1 1, GLfloat.lit 1 1, GLfloat.lit 1 1 ]

/-- The array `indices` of `UCreateMesh` (lines 220-228). -/
def indices : List Nat :=
  [ 0, 1, 2,
    0, 3, 1,
    3, 1, 4,
    4, 1, 2,
    0, 3, 4,
    0, 4, 2 ]

/-- The constant `floatsPerVertex` (line 230). -/
def floatsPerVertex : Nat := 3

/-- The constant `floatsPerColor` (line 231). -/
def floatsPerColor : Nat := 4

/-- The value `sizeof(verts)`. -/
def sizeof_verts : Nat := verts.length * sizeof_float

/-- The value `sizeof(indices)`. -/
def sizeof_indices : Nat := indices.length * sizeof_GLushort

/-- The local `stride` of `UCreateMesh` (line 246). -/
def stride : Nat := sizeof_float * (floatsPerVertex + floatsPerColor)

/-- The function `UCreateMesh` (lines 207-254), called on `gMesh`.  The
field `nIndices` is a `GLuint`. -/
def UCreateMesh (env : Env) (m : Machine) : Machine :=
  let m := m.call (Call.glGenVertexArrays 1)
  let m := { m with gMesh := { m.gMesh with vao := env.vao } }
  let m := m.call (Call.glBindVertexArray m.gMesh.vao)
  let m := m.call (Call.glGenBuffers 2)
  let m := { m with gMesh := { m.gMesh with vbos := env.vbos } }
  let m := m.call (Call.glBindBuffer GLenum.GL_ARRAY_BUFFER m.gMesh.vbos.1)
  let m := m.call (Call.glBufferData GLenum.GL_ARRAY_BUFFER sizeof_verts
    (BufferPayload.floats verts) GLenum.GL_STATIC_DRAW)
  let m := { m with gMesh := { m.gMesh with nIndices := (sizeof_indices / sizeof_int) % 2 ^ 32 } }
  let m := m.call (Call.glBindBuffer GLenum.GL_ELEMENT_ARRAY_BUFFER m.gMesh.vbos.2)
  let m := m.call (Call.glBufferData GLenum.GL_ELEMENT_ARRAY_BUFFER sizeof_indices
    (BufferPayload.ushorts indices) GLenum.GL_STATIC_DRAW)
  let m := m.call (Call.glVertexAttribPointer 0 floatsPerVertex GLenum.GL_FLOAT false stride 0)
  let m := m.call (Call.glEnableVertexAttribArray 0)
  let m := m.call (Call.glVertexAttribPointer 1 floatsPerColor GLenum.GL_FLOAT false stride
    (sizeof_float * floatsPerVertex))
  let m := m.call (Call.glEnableVertexAttribArray 1)
  m

/-- The function `UDestroyMesh` (lines 257-261), called on `gMesh`. -/
def UDestroyMesh (m : Machine) : Machine :=
  let m := m.call (Call.glDeleteVertexArrays 1 m.gMesh.vao)
  let m := m.call (Call.glDeleteBuffers 2 m.gMesh.vbos)
  m

/-- The function `UCreateShaderProgram` (lines 265-288); the out-parameter
`programId` is `gProgramId`.  No compile or link status is queried. -/
def UCreateShaderProgram (env : Env) (vtxShaderSource fragShaderSource : String)
    (m : Machine) : Bool × Machine :=
  let m := m.call Call.glCreateProgram
  let m := { m with gProgramId := env.program }
  let m := m.call (Call.glCreateShader GLenum.GL_VERTEX_SHADER)
  let vertexShaderId := env.vertexShader
  let m := m.call (Call.glCreateShader GLenum.GL_FRAGMENT_SHADER)
  let fragmentShaderId := env.fragmentShader
  let m := m.call (Call.glShaderSource vertexShaderId 1 vtxShaderSource)
  let m := m.call (Call.glShaderSource fragmentShaderId 1 fragShaderSource)
  let m := m.call (Call.glCompileShader vertexShaderId)
  let m := m.call (Call.glCompileShader fragmentShaderId)
  let m := m.call (Call.glAttachShader m.gProgramId vertexShaderId)
  let m := m.call (Call.glAttachShader m.gProgramId fragmentShaderId)
  let m := m.call (Call.glLinkProgram m.gProgramId)
  let m := m.call (Call.glUseProgram m.gProgramId)
  (true, m)

/-- The function `UDestroyShaderProgram` (lines 291-294). -/
def UDestroyShaderProgram (programId : Nat) (m : Machine) : Machine :=
  m.call (Call.glDeleteProgram programId)

/-- The function `URender` (lines 164-203).  The aspect of line 180 is the
float quotient of the two constants converted to `GLfloat`. -/
def URender (env : Env) (m : Machine) : Machine :=
  let m := m.call (Call.glEnable GLenum.GL_DEPTH_TEST)
  let m := m.call (Call.glClearColor (GLfloat.lit 0 1) (GLfloat.lit 0 1) (GLfloat.lit 0 1)
    (GLfloat.lit 1 1))
  let m := m.call (Call.glClear [ClearBit.GL_COLOR_BUFFER_BIT, ClearBit.GL_DEPTH_BUFFER_BIT])
  let m := m.call (Call.glPolygonMode GLenum.GL_FRONT_AND_BACK GLenum.GL_LINE)
  let scale := Mat4.scale ⟨GLfloat.lit 1 1, GLfloat.lit 1 1, GLfloat.lit 1 1⟩
  let rotation := Mat4.rotate (GLfloat.lit 90 1) ⟨GLfloat.lit 0 1, GLfloat.lit 1 1, GLfloat.lit 0 1⟩
  let translation := Mat4.translate ⟨GLfloat.lit 0 1, GLfloat.lit 0 1, GLfloat.lit 0 1⟩
  let model := Mat4.mul (Mat4.mul translation rotation) scale
  let view := Mat4.translate ⟨GLfloat.lit 0 1, GLfloat.lit 0 1, GLfloat.lit (-5) 1⟩
  let projection := Mat4.perspective (GLfloat.lit 45 1)
    (GLfloat.div (GLfloat.ofInt WINDOW_WIDTH) (GLfloat.ofInt WINDOW_HEIGHT))
    (GLfloat.lit 1 10) (GLfloat.lit 100 1)
  let m := m.call (Call.glUseProgram m.gProgramId)
  let m := m.call (Call.glGetUniformLocation m.gProgramId "model")
  let modelLoc := env.uniformLocation m.gProgramId "model"
  let m := m.call (Call.glGetUniformLocation m.gProgramId "view")
  let viewLoc := env.uniformLocation m.gProgramId "view"
  let m := m.call (Call.glGetUniformLocation m.gProgramId "projection")
  let projLoc := env.uniformLocation m.gProgramId "projection"
  let m := m.call (Call.glUniformMatrix4fv modelLoc 1 false model)
  let m := m.call (Call.glUniformMatrix4fv viewLoc 1 false view)
  let m := m.call (Call.glUniformMatrix4fv projLoc 1 false projection)
  let m := m.call (Call.glBindVertexArray m.gMesh.vao)
  let m := m.call (Call.glDrawElements GLenum.GL_TRIANGLES m.gMesh.nIndices
    GLenum.GL_UNSIGNED_SHORT 0)
  let m := m.call (Call.glBindVertexArray 0)
  let m := m.call (Call.glfwSwapBuffers m.gWindow)
  m

/-! ## The entry point -/

/-- How a run of `main` ends. -/
inductive Outcome where
  /-- The process exits with the given code. -/
  | exited (code : Int)
  /-- The loop condition is evaluated on a null window handle; what GLFW does
  there is outside the program. -/
  | nullWindow
  /-- The loop is still running when the fuel is used up. -/
  | running
deriving DecidableEq, Repr

/-- How the render loop ends. -/
inductive LoopEnd where
  | closed
  | nullWindow
  | running
deriving DecidableEq, Repr

/-- The body of the loop of `main` (lines 106-108). -/
def loopBody (env : Env) (m : Machine) : Machine :=
  let m := UProcessInput env m.gWindow (m.record Op.processInput)
  let m := URender env (m.record Op.render)
  let m := glfwPollEvents env (m.record Op.pollEvents)
  m

/-- The loop of `main` (lines 104-109), run for at most `fuel` evaluations of
its condition. -/
def renderLoop (env : Env) : Nat → Machine → LoopEnd × Machine
  | 0, m => (LoopEnd.running, m)
  | fuel + 1, m =>
    match glfwWindowShouldClose m.gWindow m with
    | none => (LoopEnd.nullWindow, m)
    | some true => (LoopEnd.closed, m)
    | some false => renderLoop env fuel (loopBody env m)

/-- The function `main` (lines 87-114). -/
def main (env : Env) (fuel : Nat) : Outcome × Machine :=
  let r := UInitialize env (Machine.start.record Op.bootstrap)
  if !r.1 then (Outcome.exited EXIT_FAILURE, r.2) else
  let m := UCreateMesh env (r.2.record Op.createMesh)
  let s := UCreateShaderProgram env vertexShaderSource fragmentShaderSource
    (m.record Op.createShaderProgram)
  if !s.1 then (Outcome.exited EXIT_FAILURE, s.2) else
  let m := s.2.call (Call.glClearColor (GLfloat.lit 0 1) (GLfloat.lit 0 1) (GLfloat.lit 0 1)
    (GLfloat.lit 1 1))
  match renderLoop env fuel m with
  | (LoopEnd.closed, m) =>
    let m := UDestroyMesh (m.record Op.destroyMesh)
    let m := UDestroyShaderProgram m.gProgramId (m.record Op.destroyShaderProgram)
    (Outcome.exited EXIT_SUCCESS, m)
  | (LoopEnd.nullWindow, m) => (Outcome.nullWindow, m)
  | (LoopEnd.running, m) => (Outcome.running, m)

/-! ## Reading the call log -/

/-- The arguments of a `glVertexAttribPointer` call: index, size, type,
normalized, stride, offset. -/
def attribPointerArgs : Call → Option (Nat × Nat × GLenum × Bool × Nat × Nat)
  | Call.glVertexAttribPointer i n t b s o => some (i, n, t, b, s, o)
  | _ => none

/-- The vertex attribute layouts configured by the calls, oldest first. -/
def attribPointers (cs : List Call) : List (Nat × Nat × GLenum × Bool × Nat × Nat) :=
  cs.filterMap attribPointerArgs

/-- The arguments of a `glDrawElements` call: mode, count, type, offset. -/
def drawArgs : Call → Option (GLenum × Nat × GLenum × Nat)
  | Call.glDrawElements mode n t o => some (mode, n, t, o)
  | _ => none

/-- The draw calls among the calls, oldest first. -/
def draws (cs : List Call) : List (GLenum × Nat × GLenum × Nat) :=
  cs.filterMap drawArgs

/-- The aspect argument of a matrix built by `glm::perspective`. -/
def perspectiveAspect : Mat4 → Option GLfloat
  | Mat4.perspective _ a _ _ => some a
  | _ => none

/-- The aspect argument of the perspective matrix a call uploads. -/
def uploadedAspect : Call → Option GLfloat
  | Call.glUniformMatrix4fv _ _ _ v => perspectiveAspect v
  | _ => none

/-- The aspect arguments of the perspective matrices uploaded by the calls,
oldest first. -/
def uploadedAspects (cs : List Call) : List GLfloat :=
  cs.filterMap uploadedAspect

/-- The state `main` has reached when it first evaluates the loop condition
(line 104). -/
def beforeLoop (env : Env) : Machine :=
  (UCreateShaderProgram env vertexShaderSource fragmentShaderSource
    ((UCreateMesh env ((UInitialize env (Machine.start.record Op.bootstrap)).2.record
      Op.createMesh)).record Op.createShaderProgram)).2.call
        (Call.glClearColor (GLfloat.lit 0 1) (GLfloat.lit 0 1) (GLfloat.lit 0 1) (GLfloat.lit 1 1))

/-- The state after the given number of runs of the loop body. -/
def afterFrames (env : Env) : Nat → Machine → Machine
  | 0, m => m
  | k + 1, m => afterFrames env k (loopBody env m)

/-- What the loop condition of `main` reads after the given number of
iterations. -/
def conditionReads (env : Env) (k : Nat) : Option Bool :=
  glfwWindowShouldClose (afterFrames env k (beforeLoop env)).gWindow
    (afterFrames env k (beforeLoop env))

/-- An environment with a display: the window is created with handle `1`, and
the Escape key is down in frame `n` and in no other. -/
def escapeInFrame (n : Nat) : Env :=
  { window := some 1
    glewOk := true
    glVersion := "4.5"
    vao := 1
    vbos := (1, 2)
    program := 3
    vertexShader := 1
    fragmentShader := 2
    compiles := fun _ _ => true
    links := fun _ _ => true
    uniformLocation := fun _ _ => 0
    escapePressed := fun k => k == n
    closeRequested := fun _ => false
    resized := fun _ => none }

/-- An environment in which no shader compiles and no program links; Escape
is down in the first frame. -/
def brokenShaders : Env :=
  { escapeInFrame 0 with compiles := (fun _ _ => false), links := (fun _ _ => false) }

/-! ## The GL objects the calls build

The draw call reads the element buffer and the attribute buffers of the bound
vertex array object.  `GLState` is the part of the GL context that decides
what a draw reads, `GLState.step` the effect of one call on it, and `replay`
the state a call log leaves behind, with `ok` telling whether every draw call
of the log stayed inside the buffers as they were when it was issued. -/

/-- The arguments of `glVertexAttribPointer` an attribute keeps, and the
buffer that was bound to `GL_ARRAY_BUFFER` when it was called. -/
structure AttribPointer where
  size : Nat
  type : GLenum
  stride : Nat
  offset : Nat
  buffer : Nat
deriving DecidableEq

/-- The part of the GL context a draw call depends on.  The name 0 is no
object. -/
structure GLState where
  /-- Whether every draw call so far stayed inside the uploaded data. -/
  ok : Bool
  /-- The bound vertex array object. -/
  boundVao : Nat
  /-- The buffer bound to `GL_ARRAY_BUFFER`. -/
  arrayBuffer : Nat
  /-- The buffer bound to `GL_ELEMENT_ARRAY_BUFFER`, for each vertex array
  object. -/
  elementBuffer : Nat → Nat
  /-- The data store of each buffer: its size in bytes and the array it was
  filled from. -/
  store : Nat → Option (Nat × BufferPayload)
  /-- The attribute pointers of each vertex array object. -/
  attribs : Nat → Nat → Option AttribPointer
  /-- The enabled attribute slots of each vertex array object. -/
  enabled : Nat → List Nat

/-- The GL context before any call. -/
def GLState.start : GLState :=
  { ok := true
    boundVao := 0
    arrayBuffer := 0
    elementBuffer := fun _ => 0
    store := fun _ => none
    attribs := fun _ _ => none
    enabled := fun _ => [] }

/-- The size in bytes of one component of the given type. -/
def sizeofType : GLenum → Nat
  | GLenum.GL_FLOAT => sizeof_float
  | GLenum.GL_UNSIGNED_SHORT => sizeof_GLushort
  | _ => 0

/-- The size in bytes of the array handed to `glBufferData`. -/
def payloadBytes : BufferPayload → Nat
  | BufferPayload.floats data => data.length * sizeof_float
  | BufferPayload.ushorts data => data.length * sizeof_GLushort

/-- Whether the vertex of index `i` lies inside the data store of every
enabled attribute of the bound vertex array object: the attribute has a
pointer, its buffer has a store that was filled from an array at least as
long, and the bytes `offset + i * stride` up to the end of the last component
are inside the store. -/
def vertexInBounds (st : GLState) (i : Nat) : Bool :=
  (st.enabled st.boundVao).all fun a =>
    match st.attribs st.boundVao a with
    | none => false
    | some p =>
      match st.store p.buffer with
      | none => false
      | some (size, data) =>
        decide (size ≤ payloadBytes data)
          && decide (p.offset
              + i * (if p.stride = 0 then p.size * sizeofType p.type else p.stride)
              + p.size * sizeofType p.type ≤ size)

/-- Whether `glDrawElements(mode, count, type, offset)` reads inside the
uploaded data: a vertex array object is bound, its element buffer has a store
filled from an array of unsigned shorts at least as long, the index type is
`GL_UNSIGNED_SHORT`, the `count` indices from byte `offset` lie inside the
store, and every entry of the index array names a vertex inside every enabled
attribute's store. -/
def drawInBounds (st : GLState) (count : Nat) (type : GLenum) (offset : Nat) : Bool :=
  decide (st.boundVao ≠ 0)
    && match st.store (st.elementBuffer st.boundVao) with
      | some (size, BufferPayload.ushorts data) =>
        decide (type = GLenum.GL_UNSIGNED_SHORT)
          && decide (size ≤ data.length * sizeof_GLushort)
          && decide (offset % sizeof_GLushort = 0)
          && decide (offset + count * sizeof_GLushort ≤ size)
          && data.all (vertexInBounds st)
      | _ => false

/-- The effect of one call on the GL objects. -/
def GLState.step (st : GLState) : Call → GLState
  | Call.glBindVertexArray a => { st with boundVao := a }
  | Call.glBindBuffer GLenum.GL_ARRAY_BUFFER b => { st with arrayBuffer := b }
  | Call.glBindBuffer GLenum.GL_ELEMENT_ARRAY_BUFFER b =>
    { st with elementBuffer := Function.update st.elementBuffer st.boundVao b }
  | Call.glBufferData GLenum.GL_ARRAY_BUFFER size data _ =>
    if st.arrayBuffer = 0 then st
    else { st with store := Function.update st.store st.arrayBuffer (some (size, data)) }
  | Call.glBufferData GLenum.GL_ELEMENT_ARRAY_BUFFER size data _ =>
    if st.elementBuffer st.boundVao = 0 then st
    else { st with
      store := Function.update st.store (st.elementBuffer st.boundVao) (some (size, data)) }
  | Call.glVertexAttribPointer i n t _ s o =>
    { st with
      attribs := Function.update st.attribs st.boundVao
        (Function.update (st.attribs st.boundVao) i
          (some (AttribPointer.mk n t s o st.arrayBuffer))) }
  | Call.glEnableVertexAttribArray i =>
    { st with
      enabled := Function.update st.enabled st.boundVao (i :: st.enabled st.boundVao) }
  | Call.glDrawElements _ count type offset =>
    { st with ok := st.ok && drawInBounds st count type offset }
  | Call.glDeleteVertexArrays _ a =>
    { st with
      boundVao := if st.boundVao = a then 0 else st.boundVao
      elementBuffer := Function.update st.elementBuffer a 0
      attribs := Function.update st.attribs a (fun _ => none)
      enabled := Function.update st.enabled a [] }
  | Call.glDeleteBuffers _ bs =>
    { st with store := Function.update (Function.update st.store bs.1 none) bs.2 none }
  | _ => st

/-- The GL objects after the calls, started from `st`. -/
def replayFrom (st : GLState) (cs : List Call) : GLState :=
  cs.foldl GLState.step st

/-- The GL objects a call log leaves behind. -/
def replay (cs : List Call) : GLState :=
  replayFrom GLState.start cs

/-- The mesh as `UCreateMesh` leaves it in the GL context: both stores filled,
the element buffer attached to the vertex array object, the two attributes
pointing into the vertex buffer and enabled, and no draw out of bounds so
far. -/
def MeshUploaded (env : Env) (st : GLState) : Prop :=
  st.ok = true
    ∧ st.store env.vbos.1 = some (sizeof_verts, BufferPayload.floats verts)
    ∧ st.store env.vbos.2 = some (sizeof_indices, BufferPayload.ushorts indices)
    ∧ st.elementBuffer env.vao = env.vbos.2
    ∧ st.attribs env.vao 0 = some (AttribPointer.mk floatsPerVertex GLenum.GL_FLOAT stride 0 env.vbos.1)
    ∧ st.attribs env.vao 1 = some (AttribPointer.mk floatsPerColor GLenum.GL_FLOAT stride
        (sizeof_float * floatsPerVertex) env.vbos.1)
    ∧ st.enabled env.vao = [1, 0]

/-! ## Effects of the functions on each field -/

section effects

variable (env : Env) (m : Machine)

@[simp] theorem call_calls (c : Call) : (m.call c).calls = m.calls ++ [c] := rfl

@[simp] theorem call_trace (c : Call) : (m.call c).trace = m.trace := rfl

@[simp] theorem call_gWindow (c : Call) : (m.call c).gWindow = m.gWindow := rfl

@[simp] theorem call_gMesh (c : Call) : (m.call c).gMesh = m.gMesh := rfl

@[simp] theorem call_gProgramId (c : Call) : (m.call c).gProgramId = m.gProgramId := rfl

@[simp] theorem call_closeFlag (c : Call) : (m.call c).closeFlag = m.closeFlag := rfl

@[simp] theorem call_frame (c : Call) : (m.call c).frame = m.frame := rfl

@[simp] theorem call_viewport (c : Call) : (m.call c).viewport = m.viewport := rfl

@[simp] theorem call_resizeCallback (c : Call) :
    (m.call c).resizeCallback = m.resizeCallback := rfl

@[simp] theorem record_calls (o : Op) : (m.record o).calls = m.calls := rfl

@[simp] theorem record_trace (o : Op) : (m.record o).trace = m.trace ++ [o] := rfl

@[simp] theorem record_gWindow (o : Op) : (m.record o).gWindow = m.gWindow := rfl

@[simp] theorem record_gMesh (o : Op) : (m.record o).gMesh = m.gMesh := rfl

@[simp] theorem record_gProgramId (o : Op) : (m.record o).gProgramId = m.gProgramId := rfl

@[simp] theorem record_closeFlag (o : Op) : (m.record o).closeFlag = m.closeFlag := rfl

@[simp] theorem record_frame (o : Op) : (m.record o).frame = m.frame := rfl

@[simp] theorem record_viewport (o : Op) : (m.record o).viewport = m.viewport := rfl

@[simp] theorem record_resizeCallback (o : Op) :
    (m.record o).resizeCallback = m.resizeCallback := rfl

theorem UCreateMesh_calls : (UCreateMesh env m).calls = m.calls ++
    [ Call.glGenVertexArrays 1,
      Call.glBindVertexArray env.vao,
      Call.glGenBuffers 2,
      Call.glBindBuffer GLenum.GL_ARRAY_BUFFER env.vbos.1,
      Call.glBufferData GLenum.GL_ARRAY_BUFFER sizeof_verts (BufferPayload.floats verts)
        GLenum.GL_STATIC_DRAW,
      Call.glBindBuffer GLenum.GL_ELEMENT_ARRAY_BUFFER env.vbos.2,
      Call.glBufferData GLenum.GL_ELEMENT_ARRAY_BUFFER sizeof_indices
        (BufferPayload.ushorts indices) GLenum.GL_STATIC_DRAW,
      Call.glVertexAttribPointer 0 floatsPerVertex GLenum.GL_FLOAT false stride 0,
      Call.glEnableVertexAttribArray 0,
      Call.glVertexAttribPointer 1 floatsPerColor GLenum.GL_FLOAT false stride
        (sizeof_float * floatsPerVertex),
      Call.glEnableVertexAttribArray 1 ] := by
  simp [UCreateMesh, Machine.call]

theorem UCreateMesh_gMesh : (UCreateMesh env m).gMesh =
    { vao := env.vao, vbos := env.vbos, nIndices := (sizeof_indices / sizeof_int) % 2 ^ 32 } :=
  rfl

@[simp] theorem UCreateMesh_trace : (UCreateMesh env m).trace = m.trace := rfl

@[simp] theorem UCreateMesh_gWindow : (UCreateMesh env m).gWindow = m.gWindow := rfl

theorem URender_calls : (URender env m).calls = m.calls ++
    [ Call.glEnable GLenum.GL_DEPTH_TEST,
      Call.glClearColor (GLfloat.lit 0 1) (GLfloat.lit 0 1) (GLfloat.lit 0 1) (GLfloat.lit 1 1),
      Call.glClear [ClearBit.GL_COLOR_BUFFER_BIT, ClearBit.GL_DEPTH_BUFFER_BIT],
      Call.glPolygonMode GLenum.GL_FRONT_AND_BACK GLenum.GL_LINE,
      Call.glUseProgram m.gProgramId,
      Call.glGetUniformLocation m.gProgramId "model",
      Call.glGetUniformLocation m.gProgramId "view",
      Call.glGetUniformLocation m.gProgramId "projection",
      Call.glUniformMatrix4fv (env.uniformLocation m.gProgramId "model") 1 false
        (Mat4.mul
          (Mat4.mul (Mat4.translate ⟨GLfloat.lit 0 1, GLfloat.lit 0 1, GLfloat.lit 0 1⟩)
            (Mat4.rotate (GLfloat.lit 90 1) ⟨GLfloat.lit 0 1, GLfloat.lit 1 1, GLfloat.lit 0 1⟩))
          (Mat4.scale ⟨GLfloat.lit 1 1, GLfloat.lit 1 1, GLfloat.lit 1 1⟩)),
      Call.glUniformMatrix4fv (env.uniformLocation m.gProgramId "view") 1 false
        (Mat4.translate ⟨GLfloat.lit 0 1, GLfloat.lit 0 1, GLfloat.lit (-5) 1⟩),
      Call.glUniformMatrix4fv (env.uniformLocation m.gProgramId "projection") 1 false
        (Mat4.perspective (GLfloat.lit 45 1)
          (GLfloat.div (GLfloat.ofInt WINDOW_WIDTH) (GLfloat.ofInt WINDOW_HEIGHT))
          (GLfloat.lit 1 10) (GLfloat.lit 100 1)),
      Call.glBindVertexArray m.gMesh.vao,
      Call.glDrawElements GLenum.GL_TRIANGLES m.gMesh.nIndices GLenum.GL_UNSIGNED_SHORT 0,
      Call.glBindVertexArray 0,
      Call.glfwSwapBuffers m.gWindow ] := by
  simp [URender]

@[simp] theorem URender_trace : (URender env m).trace = m.trace := by
  simp [URender]

@[simp] theorem URender_gWindow : (URender env m).gWindow = m.gWindow := by
  simp [URender]

@[simp] theorem URender_gMesh : (URender env m).gMesh = m.gMesh := by
  simp [URender]

@[simp] theorem URender_gProgramId : (URender env m).gProgramId = m.gProgramId := by
  simp [URender]

@[simp] theorem URender_closeFlag : (URender env m).closeFlag = m.closeFlag := by
  simp [URender]

@[simp] theorem URender_frame : (URender env m).frame = m.frame := by
  simp [URender]

theorem UResizeWindow_eq (window : Option Nat) (width height : Int) :
    UResizeWindow window width height m =
      { m with viewport := { x := 0, y := 0, width := width, height := height } } := rfl

end effects

/-! ## Mesh creation -/

/-- Claim C1, as the code has it: after `UCreateMesh` the field `nIndices` is
9, while the index array uploaded to the element buffer has 18 entries in 36
bytes; line 241 divides `sizeof(indices)` by `sizeof(int)`, not by the size of
an entry. -/
theorem UCreateMesh_nIndices_is_nine (env : Env) (m : Machine) :
    (UCreateMesh env m).gMesh.nIndices = 9
      ∧ Call.glBufferData GLenum.GL_ELEMENT_ARRAY_BUFFER 36 (BufferPayload.ushorts indices)
          GLenum.GL_STATIC_DRAW ∈ (UCreateMesh env m).calls
      ∧ indices.length = 18
      ∧ (UCreateMesh env m).gMesh.nIndices = sizeof_indices / sizeof_int
      ∧ indices.length = sizeof_indices / sizeof_GLushort := by
  refine ⟨rfl, ?_, rfl, rfl, rfl⟩
  rw [UCreateMesh_calls]
  simp [sizeof_indices, indices, sizeof_GLushort]

/-- Claim C4: `UCreateMesh` configures exactly two vertex attributes, the
position at slot 0 with 3 float components at byte offset 0 and the color at
slot 1 with 4 float components at byte offset `3 * sizeof(float) = 12`, both
with the stride `7 * sizeof(float) = 28`; the vertex array it uploads has 35
floats in 140 bytes, which is 5 vertices of that stride. -/
theorem UCreateMesh_vertex_layout (env : Env) (m : Machine) :
    attribPointers (UCreateMesh env m).calls = attribPointers m.calls ++
        [ (0, 3, GLenum.GL_FLOAT, false, 28, 0), (1, 4, GLenum.GL_FLOAT, false, 28, 12) ]
      ∧ 28 = 7 * sizeof_float ∧ 12 = 3 * sizeof_float
      ∧ Call.glBufferData GLenum.GL_ARRAY_BUFFER 140 (BufferPayload.floats verts)
          GLenum.GL_STATIC_DRAW ∈ (UCreateMesh env m).calls
      ∧ verts.length = 35 ∧ verts.length = 5 * 7 ∧ 140 = 5 * 28 := by
  refine ⟨?_, rfl, rfl, ?_, rfl, rfl, rfl⟩
  · rw [UCreateMesh_calls]
    simp [attribPointers, attribPointerArgs, List.filterMap_append, stride, floatsPerVertex,
      floatsPerColor, sizeof_float]
  · rw [UCreateMesh_calls]
    simp [sizeof_verts, verts, sizeof_float]

/-! ## Bootstrap -/

/-- Claim C2, as the code has it: `UInitialize` returns `true` on every path.
When `glfwCreateWindow` yields `NULL`, it leaves `gWindow` null, logs the
message, terminates GLFW, and the `return -1` of line 134 converts to
`true`. -/
theorem UInitialize_returns_true (env : Env) (m : Machine) :
    (UInitialize env m).1 = true
      ∧ (UInitialize { env with window := none } m).1 = true
      ∧ (UInitialize { env with window := none } m).2.gWindow = none
      ∧ Call.cout "Failed to create GLFW window\n"
          ∈ (UInitialize { env with window := none } m).2.calls
      ∧ boolOfInt (-1) = true := by
  refine ⟨?_, rfl, rfl, ?_, rfl⟩
  · cases hw : env.window
    · simp only [UInitialize, hw]
      rfl
    · simp only [UInitialize, hw]
  · simp [UInitialize, Machine.call]

/-! ## Resizing -/

/-- Claim C5: for positive `width` and `height`, `UResizeWindow` sets the
viewport to `(0, 0, width, height)`, whatever the viewport was and whatever
window handle is passed, and changes nothing else: the globals, the close
flags, the registered callback, the frame count, the call log and the trace of
`main` are as before. -/
theorem UResizeWindow_sets_viewport (window : Option Nat) (width height : Int) (m : Machine)
    (_hw : 0 < width) (_hh : 0 < height) :
    (UResizeWindow window width height m).viewport
        = { x := 0, y := 0, width := width, height := height }
      ∧ UResizeWindow window width height m
        = { m with viewport := { x := 0, y := 0, width := width, height := height } }
      ∧ (UResizeWindow window width height m).gMesh = m.gMesh
      ∧ (UResizeWindow window width height m).gProgramId = m.gProgramId
      ∧ (UResizeWindow window width height m).gWindow = m.gWindow
      ∧ (UResizeWindow window width height m).closeFlag = m.closeFlag :=
  ⟨rfl, rfl, rfl, rfl, rfl, rfl⟩

/-- Claim C5 at the window handle 7 and the size 1024 x 768, from the state
at entry of `main`. -/
theorem UResizeWindow_sets_viewport_witness :
    (0 : Int) < 1024 ∧ (0 : Int) < 768
      ∧ (UResizeWindow (some 7) 1024 768 Machine.start).viewport
        = { x := 0, y := 0, width := 1024, height := 768 } :=
  ⟨by decide, by decide,
    (UResizeWindow_sets_viewport (some 7) 1024 768 Machine.start (by decide) (by decide)).1⟩

/-! ## The projection -/

/-- The float quotient of line 180 is `11184811 * 2 ^ (-23)`. -/
theorem aspect_value :
    GLfloat.div (GLfloat.ofInt WINDOW_WIDTH) (GLfloat.ofInt WINDOW_HEIGHT)
      = GLfloat.finite false 11184811 (-23) := by
  decide

/-- Claim C8 fails as stated.  At the initial size 800 x 600, in the state in
which `main` enters the loop, the one perspective matrix `URender` uploads has
an aspect whose value is not the rational `800 / 600`; and once
`UResizeWindow` has reported the size 1000 x 500, so that the viewport is
`(0, 0, 1000, 500)`, the aspect uploaded is the same float, whose value is not
`1000 / 500` either. -/
theorem URender_aspect_counterexample :
    uploadedAspects (URender (escapeInFrame 0) (beforeLoop (escapeInFrame 0))).calls
        = [GLfloat.finite false 11184811 (-23)]
      ∧ GLfloat.toRat (GLfloat.finite false 11184811 (-23)) ≠ some ((800 : ℚ) / 600)
      ∧ (UResizeWindow (some 1) 1000 500 (beforeLoop (escapeInFrame 0))).viewport
        = { x := 0, y := 0, width := 1000, height := 500 }
      ∧ uploadedAspects ((URender (escapeInFrame 0)
          (UResizeWindow (some 1) 1000 500 (beforeLoop (escapeInFrame 0)))).calls)
        = [GLfloat.finite false 11184811 (-23)]
      ∧ GLfloat.toRat (GLfloat.finite false 11184811 (-23)) ≠ some ((1000 : ℚ) / 500) := by
  refine ⟨?_, by norm_num [GLfloat.toRat], rfl, ?_, by norm_num [GLfloat.toRat]⟩
  · rw [URender_calls]
    simp [uploadedAspects, uploadedAspect, perspectiveAspect, List.filterMap_append,
      beforeLoop, UCreateShaderProgram, UCreateMesh, UInitialize, escapeInFrame,
      Machine.call, Machine.record, Machine.start, aspect_value]
  · rw [URender_calls]
    simp [uploadedAspects, uploadedAspect, perspectiveAspect, List.filterMap_append,
      UResizeWindow_eq, beforeLoop, UCreateShaderProgram, UCreateMesh, UInitialize, escapeInFrame,
      Machine.call, Machine.record, Machine.start, aspect_value]

/-- Claim C8, amended: whatever the state, and whatever size `UResizeWindow`
last reported, the one perspective matrix a call of `URender` uploads has as
its aspect the float quotient `(GLfloat)WINDOW_WIDTH / (GLfloat)WINDOW_HEIGHT`
of `800` by `600`.  That float is `11184811 * 2 ^ (-23)`; as a rational number
it is `11184811 / 8388608`, which exceeds `4 / 3` by `1 / 25165824` and is
nearer to `4 / 3` than its two neighbours among the floats. -/
theorem URender_aspect_is_constant (env : Env) (m : Machine) (window : Option Nat)
    (width height : Int) :
    uploadedAspects (URender env m).calls
        = uploadedAspects m.calls
          ++ [GLfloat.div (GLfloat.ofInt WINDOW_WIDTH) (GLfloat.ofInt WINDOW_HEIGHT)]
      ∧ uploadedAspects (URender env (UResizeWindow window width height m)).calls
        = uploadedAspects m.calls
          ++ [GLfloat.div (GLfloat.ofInt WINDOW_WIDTH) (GLfloat.ofInt WINDOW_HEIGHT)]
      ∧ GLfloat.div (GLfloat.ofInt WINDOW_WIDTH) (GLfloat.ofInt WINDOW_HEIGHT)
        = GLfloat.div (GLfloat.ofInt 800) (GLfloat.ofInt 600)
      ∧ GLfloat.div (GLfloat.ofInt 800) (GLfloat.ofInt 600)
        = GLfloat.finite false 11184811 (-23)
      ∧ GLfloat.toRat (GLfloat.div (GLfloat.ofInt WINDOW_WIDTH) (GLfloat.ofInt WINDOW_HEIGHT))
        = some ((11184811 : ℚ) / 8388608)
      ∧ (11184811 : ℚ) / 8388608 - 4 / 3 = 1 / 25165824
      ∧ (4 : ℚ) / 3 - 11184810 / 8388608 = 2 / 25165824
      ∧ (11184812 : ℚ) / 8388608 - 4 / 3 = 4 / 25165824 := by
  refine ⟨?_, ?_, rfl, by decide, ?_, by norm_num, by norm_num, by norm_num⟩
  · rw [URender_calls]
    simp [uploadedAspects, uploadedAspect, perspectiveAspect, List.filterMap_append]
  · rw [URender_calls]
    simp [uploadedAspects, uploadedAspect, perspectiveAspect, List.filterMap_append,
      UResizeWindow_eq]
  · rw [aspect_value]
    norm_num [GLfloat.toRat]

/-! ## Effects of input processing, event polling and the loop body -/

section frames

variable (env : Env) (m : Machine)

@[simp] theorem UProcessInput_trace (w : Option Nat) :
    (UProcessInput env w m).trace = m.trace := by
  unfold UProcessInput glfwSetWindowShouldClose
  split <;> [cases w <;> rfl; rfl]

@[simp] theorem UProcessInput_calls (w : Option Nat) :
    (UProcessInput env w m).calls = m.calls := by
  unfold UProcessInput glfwSetWindowShouldClose
  split <;> [cases w <;> rfl; rfl]

@[simp] theorem UProcessInput_gWindow (w : Option Nat) :
    (UProcessInput env w m).gWindow = m.gWindow := by
  unfold UProcessInput glfwSetWindowShouldClose
  split <;> [cases w <;> rfl; rfl]

@[simp] theorem UProcessInput_gMesh (w : Option Nat) :
    (UProcessInput env w m).gMesh = m.gMesh := by
  unfold UProcessInput glfwSetWindowShouldClose
  split <;> [cases w <;> rfl; rfl]

@[simp] theorem UProcessInput_gProgramId (w : Option Nat) :
    (UProcessInput env w m).gProgramId = m.gProgramId := by
  unfold UProcessInput glfwSetWindowShouldClose
  split <;> [cases w <;> rfl; rfl]

@[simp] theorem UProcessInput_frame (w : Option Nat) :
    (UProcessInput env w m).frame = m.frame := by
  unfold UProcessInput glfwSetWindowShouldClose
  split <;> [cases w <;> rfl; rfl]

theorem glfwSetWindowShouldClose_keeps_flag (w : Option Nat) (h : Nat)
    (hf : m.closeFlag h = true) : (glfwSetWindowShouldClose w true m).closeFlag h = true := by
  cases w with
  | none => exact hf
  | some k =>
    by_cases hk : h = k
    · subst hk; simp [glfwSetWindowShouldClose]
    · simp [glfwSetWindowShouldClose, Function.update_noteq hk, hf]

theorem UProcessInput_keeps_flag (w : Option Nat) (h : Nat) (hf : m.closeFlag h = true) :
    (UProcessInput env w m).closeFlag h = true := by
  unfold UProcessInput
  split
  · exact glfwSetWindowShouldClose_keeps_flag m w h hf
  · exact hf

theorem deliverClose_fields :
    (deliverClose env m).trace = m.trace
      ∧ (deliverClose env m).gWindow = m.gWindow
      ∧ (deliverClose env m).gMesh = m.gMesh
      ∧ (deliverClose env m).gProgramId = m.gProgramId
      ∧ (deliverClose env m).frame = m.frame
      ∧ (deliverClose env m).calls = m.calls := by
  unfold deliverClose glfwSetWindowShouldClose
  split
  · split <;> simp
  · simp

theorem deliverResize_fields :
    (deliverResize env m).trace = m.trace
      ∧ (deliverResize env m).gWindow = m.gWindow
      ∧ (deliverResize env m).gMesh = m.gMesh
      ∧ (deliverResize env m).gProgramId = m.gProgramId
      ∧ (deliverResize env m).frame = m.frame
      ∧ (deliverResize env m).calls = m.calls
      ∧ (deliverResize env m).closeFlag = m.closeFlag := by
  unfold deliverResize
  split <;> simp [UResizeWindow_eq]

theorem glfwPollEvents_fields :
    (glfwPollEvents env m).trace = m.trace
      ∧ (glfwPollEvents env m).gWindow = m.gWindow
      ∧ (glfwPollEvents env m).gMesh = m.gMesh
      ∧ (glfwPollEvents env m).gProgramId = m.gProgramId
      ∧ (glfwPollEvents env m).frame = m.frame + 1
      ∧ (glfwPollEvents env m).calls = m.calls ++ [Call.glfwPollEvents] := by
  obtain ⟨c1, c2, c3, c4, c5, c6⟩ := deliverClose_fields env m
  obtain ⟨r1, r2, r3, r4, r5, r6, _⟩ := deliverResize_fields env (deliverClose env m)
  simp only [glfwPollEvents]
  exact ⟨r1.trans c1, r2.trans c2, r3.trans c3, r4.trans c4, by rw [r5, c5],
    by rw [r6, c6]⟩

theorem deliverClose_keeps_flag (h : Nat) (hf : m.closeFlag h = true) :
    (deliverClose env m).closeFlag h = true := by
  unfold deliverClose
  split
  · exact glfwSetWindowShouldClose_keeps_flag m env.window h hf
  · exact hf

theorem glfwPollEvents_keeps_flag (h : Nat) (hf : m.closeFlag h = true) :
    (glfwPollEvents env m).closeFlag h = true := by
  have h1 := deliverClose_keeps_flag env m h hf
  have h2 := (deliverResize_fields env (deliverClose env m)).2.2.2.2.2.2
  simp only [glfwPollEvents]
  rw [h2]
  exact h1

@[simp] theorem loopBody_trace :
    (loopBody env m).trace = m.trace ++ [Op.processInput, Op.render, Op.pollEvents] := by
  simp [loopBody, (glfwPollEvents_fields env _).1]

@[simp] theorem loopBody_gWindow : (loopBody env m).gWindow = m.gWindow := by
  simp [loopBody, (glfwPollEvents_fields env _).2.1]

@[simp] theorem loopBody_gMesh : (loopBody env m).gMesh = m.gMesh := by
  simp [loopBody, (glfwPollEvents_fields env _).2.2.1]

@[simp] theorem loopBody_gProgramId : (loopBody env m).gProgramId = m.gProgramId := by
  simp [loopBody, (glfwPollEvents_fields env _).2.2.2.1]

@[simp] theorem loopBody_frame : (loopBody env m).frame = m.frame + 1 := by
  simp [loopBody, (glfwPollEvents_fields env _).2.2.2.2.1]

theorem loopBody_draws :
    draws (loopBody env m).calls = draws m.calls
      ++ [(GLenum.GL_TRIANGLES, m.gMesh.nIndices, GLenum.GL_UNSIGNED_SHORT, 0)] := by
  simp [loopBody, (glfwPollEvents_fields env _).2.2.2.2.2, URender_calls, draws,
    drawArgs, List.filterMap_append]

theorem loopBody_keeps_flag (h : Nat) (hf : m.closeFlag h = true) :
    (loopBody env m).closeFlag h = true := by
  unfold loopBody
  apply glfwPollEvents_keeps_flag
  simp only [record_closeFlag, URender_closeFlag]
  apply UProcessInput_keeps_flag
  simpa using hf

theorem afterFrames_succ (k : Nat) :
    afterFrames env (k + 1) m = loopBody env (afterFrames env k m) := by
  induction k generalizing m with
  | zero => rfl
  | succ k ih =>
    show afterFrames env (k + 1) (loopBody env m) = _
    rw [ih]
    rfl

@[simp] theorem afterFrames_gWindow (k : Nat) : (afterFrames env k m).gWindow = m.gWindow := by
  induction k generalizing m with
  | zero => rfl
  | succ k ih => simp [afterFrames, ih]

theorem afterFrames_trace (k : Nat) :
    (afterFrames env k m).trace
      = m.trace ++ (List.replicate k [Op.processInput, Op.render, Op.pollEvents]).flatten := by
  induction k generalizing m with
  | zero => simp [afterFrames]
  | succ k ih => simp [afterFrames, ih, List.replicate_succ]

/-- The loop stops at the first evaluation of its condition that reads the
flag as set, in the state the iterations before it have produced. -/
theorem renderLoop_closed (n : Nat) :
    ∀ (fuel : Nat) (m : Machine), n < fuel →
      (∀ k < n, glfwWindowShouldClose m.gWindow (afterFrames env k m) = some false) →
      glfwWindowShouldClose m.gWindow (afterFrames env n m) = some true →
      renderLoop env fuel m = (LoopEnd.closed, afterFrames env n m) := by
  induction n with
  | zero =>
    intro fuel m hfuel _ htrue
    obtain ⟨f, rfl⟩ : ∃ f, fuel = f + 1 := ⟨fuel - 1, by omega⟩
    simp only [afterFrames] at htrue
    simp [renderLoop, htrue, afterFrames]
  | succ n ih =>
    intro fuel m hfuel hfalse htrue
    obtain ⟨f, rfl⟩ : ∃ f, fuel = f + 1 := ⟨fuel - 1, by omega⟩
    have h0 := hfalse 0 (by omega)
    simp only [afterFrames] at h0
    have hrec := ih f (loopBody env m) (by omega)
      (fun k hk => by
        have := hfalse (k + 1) (by omega)
        simpa [afterFrames] using this)
      (by simpa [afterFrames] using htrue)
    simp [renderLoop, h0, hrec, afterFrames]

theorem renderLoop_gMesh (fuel : Nat) :
    ∀ m : Machine, (renderLoop env fuel m).2.gMesh = m.gMesh := by
  induction fuel with
  | zero => intro m; rfl
  | succ f ih =>
    intro m
    unfold renderLoop
    split
    · rfl
    · rfl
    · rw [ih]; simp

theorem renderLoop_draws (fuel : Nat) (c : Nat) :
    ∀ m : Machine, m.gMesh.nIndices = c →
      (∀ d ∈ draws m.calls, d = (GLenum.GL_TRIANGLES, c, GLenum.GL_UNSIGNED_SHORT, 0)) →
      ∀ d ∈ draws (renderLoop env fuel m).2.calls,
        d = (GLenum.GL_TRIANGLES, c, GLenum.GL_UNSIGNED_SHORT, 0) := by
  induction fuel with
  | zero => intro m _ h; exact h
  | succ f ih =>
    intro m hc h
    unfold renderLoop
    split
    · exact h
    · exact h
    · apply ih
      · simpa using hc
      · intro n hn
        rw [loopBody_draws] at hn
        rcases List.mem_append.1 hn with hn | hn
        · exact h n hn
        · simpa [hc] using hn

end frames

/-! ## The state in which the loop is entered -/

section startup

variable (env : Env) (m : Machine)

theorem UInitialize_fst : (UInitialize env m).1 = true := by
  cases hw : env.window
  · simp only [UInitialize, hw]
    rfl
  · simp only [UInitialize, hw]

theorem UInitialize_fields :
    (UInitialize env m).2.trace = m.trace
      ∧ (UInitialize env m).2.gWindow = env.window
      ∧ draws (UInitialize env m).2.calls = draws m.calls := by
  cases hw : env.window
  · simp [UInitialize, hw, draws, drawArgs, List.filterMap_append]
  · cases hg : env.glewOk <;>
      simp [UInitialize, hw, hg, draws, drawArgs, List.filterMap_append]

theorem UCreateMesh_draws :
    draws (UCreateMesh env m).calls = draws m.calls := by
  rw [UCreateMesh_calls]
  simp [draws, drawArgs, List.filterMap_append]

theorem UCreateShaderProgram_fields (v f : String) :
    (UCreateShaderProgram env v f m).1 = true
      ∧ (UCreateShaderProgram env v f m).2.trace = m.trace
      ∧ (UCreateShaderProgram env v f m).2.gWindow = m.gWindow
      ∧ (UCreateShaderProgram env v f m).2.gMesh = m.gMesh
      ∧ draws (UCreateShaderProgram env v f m).2.calls = draws m.calls := by
  simp [UCreateShaderProgram, draws, drawArgs, List.filterMap_append]

theorem beforeLoop_trace :
    (beforeLoop env).trace = [Op.bootstrap, Op.createMesh, Op.createShaderProgram] := by
  simp [beforeLoop, (UCreateShaderProgram_fields env _ _ _).2.1, (UInitialize_fields env _).1,
    Machine.start]

theorem beforeLoop_gWindow : (beforeLoop env).gWindow = env.window := by
  simp [beforeLoop, (UCreateShaderProgram_fields env _ _ _).2.2.1, (UInitialize_fields env _).2.1]

theorem beforeLoop_nIndices : (beforeLoop env).gMesh.nIndices = 9 := by
  simp only [beforeLoop, call_gMesh, (UCreateShaderProgram_fields env _ _ _).2.2.2.1,
    record_gMesh, UCreateMesh_gMesh]
  rfl

theorem beforeLoop_draws : draws (beforeLoop env).calls = [] := by
  simp only [beforeLoop, call_calls, record_calls, draws, List.filterMap_append]
  have h1 := (UCreateShaderProgram_fields env
    ((UCreateMesh env ((UInitialize env (Machine.start.record Op.bootstrap)).2.record
      Op.createMesh)).record Op.createShaderProgram) vertexShaderSource fragmentShaderSource).2.2.2.2
  have h2 := UCreateMesh_draws env
    ((UInitialize env (Machine.start.record Op.bootstrap)).2.record Op.createMesh)
  have h3 := (UInitialize_fields env (Machine.start.record Op.bootstrap)).2.2
  simp only [draws, record_calls] at h1 h2 h3
  rw [h1, h2, h3]
  simp [Machine.start, drawArgs]

/-- The function `main` is the loop run from `beforeLoop` followed by the
shutdown: neither of its two early returns is taken. -/
theorem main_eq (fuel : Nat) :
    main env fuel =
      match renderLoop env fuel (beforeLoop env) with
      | (LoopEnd.closed, m) =>
        (Outcome.exited EXIT_SUCCESS,
          UDestroyShaderProgram (UDestroyMesh (m.record Op.destroyMesh)).gProgramId
            ((UDestroyMesh (m.record Op.destroyMesh)).record Op.destroyShaderProgram))
      | (LoopEnd.nullWindow, m) => (Outcome.nullWindow, m)
      | (LoopEnd.running, m) => (Outcome.running, m) := by
  simp only [main, UInitialize_fst, (UCreateShaderProgram_fields env _ _ _).1, beforeLoop]
  rfl

theorem UDestroy_trace (m : Machine) :
    (UDestroyShaderProgram (UDestroyMesh (m.record Op.destroyMesh)).gProgramId
      ((UDestroyMesh (m.record Op.destroyMesh)).record Op.destroyShaderProgram)).trace
      = m.trace ++ [Op.destroyMesh, Op.destroyShaderProgram] := by
  simp [UDestroyShaderProgram, UDestroyMesh]

theorem UDestroy_draws (m : Machine) :
    draws (UDestroyShaderProgram (UDestroyMesh (m.record Op.destroyMesh)).gProgramId
      ((UDestroyMesh (m.record Op.destroyMesh)).record Op.destroyShaderProgram)).calls
      = draws m.calls := by
  simp [UDestroyShaderProgram, UDestroyMesh, draws, drawArgs, List.filterMap_append]

end startup

theorem count_flatten_replicate (o : Op) (l : List Op) (n : Nat) :
    List.count o (List.replicate n l).flatten = n * List.count o l := by
  induction n with
  | zero => simp
  | succ n ih => simp [List.replicate_succ, ih, Nat.succ_mul, Nat.add_comm]

/-! ## Failure of window creation in `main` -/

/-- Claim C3, as the code has it: when `glfwCreateWindow` yields `NULL`,
`main` does not return at line 90.  It calls `UCreateMesh` and
`UCreateShaderProgram` and reaches the loop condition with a null `gWindow`;
it has not exited with `EXIT_FAILURE`. -/
theorem main_without_window (env : Env) (fuel : Nat) :
    (main { env with window := none } (fuel + 1)).1 = Outcome.nullWindow
      ∧ (main { env with window := none } (fuel + 1)).2.trace
        = [Op.bootstrap, Op.createMesh, Op.createShaderProgram]
      ∧ (main { env with window := none } (fuel + 1)).2.gWindow = none
      ∧ (UInitialize { env with window := none } (Machine.start.record Op.bootstrap)).1
        = true := by
  have hw : (beforeLoop { env with window := none }).gWindow = none := beforeLoop_gWindow _
  have hl : renderLoop { env with window := none } (fuel + 1)
      (beforeLoop { env with window := none })
      = (LoopEnd.nullWindow, beforeLoop { env with window := none }) := by
    simp [renderLoop, hw, glfwWindowShouldClose]
  rw [main_eq, hl]
  exact ⟨rfl, beforeLoop_trace _, hw, UInitialize_fst _ _⟩

/-! ## The Escape key and the end of the loop -/

/-- Claim C6: on a window `h`, if Escape is pressed when `UProcessInput` runs
the close flag of `h` is set afterwards, and if it is not pressed
`UProcessInput` changes nothing; when the loop condition reads the flag as set
the loop ends at once in the very same state, so without a further `URender`;
and the iteration in which Escape is pressed leaves the flag set, so the next
evaluation of the condition ends the loop with that iteration's frame as the
last one. -/
theorem escape_closes_the_loop (env : Env) (m : Machine) (h : Nat)
    (hwin : m.gWindow = some h) :
    (env.escapePressed m.frame = true → (UProcessInput env m.gWindow m).closeFlag h = true)
      ∧ (env.escapePressed m.frame = false → UProcessInput env m.gWindow m = m)
      ∧ (m.closeFlag h = true → ∀ fuel, renderLoop env (fuel + 1) m = (LoopEnd.closed, m))
      ∧ (env.escapePressed m.frame = true →
          (loopBody env m).closeFlag h = true
            ∧ (∀ fuel, renderLoop env (fuel + 1) (loopBody env m)
                = (LoopEnd.closed, loopBody env m))
            ∧ (loopBody env m).trace
                = m.trace ++ [Op.processInput, Op.render, Op.pollEvents]) := by
  have hset : env.escapePressed m.frame = true →
      (UProcessInput env m.gWindow (m.record Op.processInput)).closeFlag h = true := by
    intro hp
    simp [UProcessInput, escapeIsPressed, hp, hwin, glfwSetWindowShouldClose]
  have hstop : ∀ s : Machine, s.gWindow = some h → s.closeFlag h = true →
      ∀ fuel, renderLoop env (fuel + 1) s = (LoopEnd.closed, s) := by
    intro s hs hf fuel
    simp [renderLoop, glfwWindowShouldClose, hs, hf]
  refine ⟨?_, ?_, hstop m hwin, ?_⟩
  · intro hp
    simp [UProcessInput, escapeIsPressed, hp, hwin, glfwSetWindowShouldClose]
  · intro hp
    simp [UProcessInput, escapeIsPressed, hp]
  · intro hp
    have hflag : (loopBody env m).closeFlag h = true := by
      unfold loopBody
      apply glfwPollEvents_keeps_flag
      simp only [record_closeFlag, URender_closeFlag]
      exact hset hp
    exact ⟨hflag, hstop _ (by simp [hwin]) hflag, loopBody_trace env m⟩

/-- Claim C6 in the state in which `main` enters the loop, with Escape down in
the first frame: the flag of window 1 is set by `UProcessInput`. -/
theorem escape_closes_the_loop_witness :
    (beforeLoop (escapeInFrame 0)).gWindow = some 1
      ∧ (escapeInFrame 0).escapePressed (beforeLoop (escapeInFrame 0)).frame = true
      ∧ (UProcessInput (escapeInFrame 0) (beforeLoop (escapeInFrame 0)).gWindow
          (beforeLoop (escapeInFrame 0))).closeFlag 1 = true :=
  ⟨by decide, by decide,
    (escape_closes_the_loop (escapeInFrame 0) (beforeLoop (escapeInFrame 0)) 1
      (by decide)).1 (by decide)⟩

/-! ## The lifecycle of a run -/

/-- Claim C7: when the window is created and the loop condition reads the
close flag as set for the first time after `n` iterations, `main`, given fuel
for `n + 1` evaluations of the condition, exits with `EXIT_SUCCESS = 0` and
has called: `UInitialize`, `UCreateMesh`, `UCreateShaderProgram`, then `n`
times `UProcessInput`, `URender`, `glfwPollEvents`, then `UDestroyMesh`,
`UDestroyShaderProgram`.  Each creation and each destruction occurs once and
`URender` occurs `n` times, all of them between the creations and the
destructions. -/
theorem main_lifecycle (env : Env) (n fuel : Nat)
    (_hboot : env.window.isSome = true)
    (hfuel : n < fuel)
    (hfalse : ∀ k < n, conditionReads env k = some false)
    (htrue : conditionReads env n = some true) :
    (main env fuel).1 = Outcome.exited EXIT_SUCCESS
      ∧ EXIT_SUCCESS = 0
      ∧ (main env fuel).2.trace
        = [Op.bootstrap, Op.createMesh, Op.createShaderProgram]
          ++ (List.replicate n [Op.processInput, Op.render, Op.pollEvents]).flatten
          ++ [Op.destroyMesh, Op.destroyShaderProgram]
      ∧ List.count Op.createMesh (main env fuel).2.trace = 1
      ∧ List.count Op.createShaderProgram (main env fuel).2.trace = 1
      ∧ List.count Op.destroyMesh (main env fuel).2.trace = 1
      ∧ List.count Op.destroyShaderProgram (main env fuel).2.trace = 1
      ∧ List.count Op.render (main env fuel).2.trace = n := by
  have hl : renderLoop env fuel (beforeLoop env)
      = (LoopEnd.closed, afterFrames env n (beforeLoop env)) := by
    apply renderLoop_closed env n fuel (beforeLoop env) hfuel
    · intro k hk
      have := hfalse k hk
      simpa [conditionReads] using this
    · simpa [conditionReads] using htrue
  have ht : (main env fuel).2.trace
      = [Op.bootstrap, Op.createMesh, Op.createShaderProgram]
        ++ (List.replicate n [Op.processInput, Op.render, Op.pollEvents]).flatten
        ++ [Op.destroyMesh, Op.destroyShaderProgram] := by
    rw [main_eq, hl]
    show (UDestroyShaderProgram _ _).trace = _
    rw [UDestroy_trace, afterFrames_trace, beforeLoop_trace]
  refine ⟨?_, rfl, ht, ?_, ?_, ?_, ?_, ?_⟩
  · rw [main_eq, hl]
  all_goals
    rw [ht]
    simp only [List.count_append, count_flatten_replicate]
    simp
    try decide

/-- Claim C7 in the run where Escape is down in the second frame: the
condition reads the flag as clear twice and as set the third time, and `main`
exits with success after two iterations. -/
theorem main_lifecycle_witness :
    (main (escapeInFrame 1) 3).1 = Outcome.exited EXIT_SUCCESS
      ∧ (main (escapeInFrame 1) 3).2.trace
        = [Op.bootstrap, Op.createMesh, Op.createShaderProgram,
            Op.processInput, Op.render, Op.pollEvents,
            Op.processInput, Op.render, Op.pollEvents,
            Op.destroyMesh, Op.destroyShaderProgram] :=
  have h := main_lifecycle (escapeInFrame 1) 2 3 (by decide) (by decide) (by decide) (by decide)
  ⟨h.1, h.2.2.1⟩

/-! ## Shader program creation -/

/-- Claim C9: `UCreateShaderProgram` returns `true` for every pair of sources
in every environment, so whatever the outcome of compiling and linking; and
whenever `main` exits after having called `UCreateShaderProgram`, its exit
code is `EXIT_SUCCESS`. -/
theorem UCreateShaderProgram_returns_true (env : Env) (vtx frag : String) (m : Machine)
    (fuel : Nat) (c : Int) :
    (UCreateShaderProgram env vtx frag m).1 = true
      ∧ ((main env fuel).1 = Outcome.exited c →
          Op.createShaderProgram ∈ (main env fuel).2.trace → c = EXIT_SUCCESS) := by
  refine ⟨rfl, ?_⟩
  rw [main_eq]
  intro hc _
  split at hc
  · injection hc with hc
    exact hc.symm
  · cases hc
  · cases hc

/-- Claim C9 in a run that ends after one frame, with sources that do not
compile: the exit code is `0`. -/
theorem UCreateShaderProgram_returns_true_witness :
    (UCreateShaderProgram brokenShaders "" "" Machine.start).1 = true
      ∧ (main brokenShaders 2).1 = Outcome.exited 0
      ∧ (0 : Int) = EXIT_SUCCESS :=
  have h := UCreateShaderProgram_returns_true brokenShaders "" "" Machine.start 2 0
  ⟨h.1, by decide, h.2 (by decide) (by decide)⟩

/-! ## The GL objects along a run -/

section objects

variable (env : Env)

theorem replayFrom_append (st : GLState) (cs ds : List Call) :
    replayFrom st (cs ++ ds) = replayFrom (replayFrom st cs) ds := by
  simp [replayFrom, List.foldl_append]

theorem replay_append (cs ds : List Call) :
    replay (cs ++ ds) = replayFrom (replay cs) ds :=
  replayFrom_append _ cs ds

theorem UInitialize_replay (m : Machine) :
    replay (UInitialize env m).2.calls = replay m.calls := by
  cases hw : env.window
  · simp [UInitialize, hw, replay, replayFrom, List.foldl_append, GLState.step]
  · cases hg : env.glewOk <;>
      simp [UInitialize, hw, hg, replay, replayFrom, List.foldl_append, GLState.step]

theorem UCreateShaderProgram_replay (v f : String) (m : Machine) :
    replay (UCreateShaderProgram env v f m).2.calls = replay m.calls := by
  simp [UCreateShaderProgram, replay, replayFrom, List.foldl_append, GLState.step]

theorem UCreateMesh_uploads (m : Machine) (hstart : replay m.calls = GLState.start)
    (hvbos : env.vbos.1 ≠ 0 ∧ env.vbos.2 ≠ 0 ∧ env.vbos.1 ≠ env.vbos.2) :
    MeshUploaded env (replay (UCreateMesh env m).calls) := by
  obtain ⟨h1, h2, h12⟩ := hvbos
  rw [UCreateMesh_calls, replay_append, hstart]
  simp [replayFrom, GLState.step, GLState.start, MeshUploaded, h1, h2, h12,
    Function.update_noteq h12]

theorem beforeLoop_uploaded
    (hvbos : env.vbos.1 ≠ 0 ∧ env.vbos.2 ≠ 0 ∧ env.vbos.1 ≠ env.vbos.2) :
    MeshUploaded env (replay (beforeLoop env).calls) := by
  have hmesh := UCreateMesh_uploads env
    ((UInitialize env (Machine.start.record Op.bootstrap)).2.record Op.createMesh)
    (by rw [record_calls, UInitialize_replay]; rfl) hvbos
  simp only [beforeLoop, call_calls, replay_append, UCreateShaderProgram_replay, record_calls]
  obtain ⟨a, b, c, d, e, f, g⟩ := hmesh
  exact ⟨by simpa [replayFrom, GLState.step] using a, by simpa [replayFrom, GLState.step] using b,
    by simpa [replayFrom, GLState.step] using c, by simpa [replayFrom, GLState.step] using d,
    by simpa [replayFrom, GLState.step] using e, by simpa [replayFrom, GLState.step] using f,
    by simpa [replayFrom, GLState.step] using g⟩

theorem beforeLoop_vao : (beforeLoop env).gMesh.vao = env.vao := by
  simp only [beforeLoop, call_gMesh, (UCreateShaderProgram_fields env _ _ _).2.2.2.1,
    record_gMesh, UCreateMesh_gMesh]

/-- With the mesh uploaded, the draw call of a frame stays in bounds and the
frame leaves the mesh as it was. -/
theorem loopBody_uploaded (m : Machine) (hvao : env.vao ≠ 0)
    (hm : m.gMesh.vao = env.vao) (hn : m.gMesh.nIndices = 9)
    (hup : MeshUploaded env (replay m.calls)) :
    MeshUploaded env (replay (loopBody env m).calls) := by
  have hcalls : (loopBody env m).calls
      = (URender env ((UProcessInput env m.gWindow (m.record Op.processInput)).record
          Op.render)).calls ++ [Call.glfwPollEvents] := by
    simp [loopBody, (glfwPollEvents_fields env _).2.2.2.2.2]
  obtain ⟨a, b, c, d, e, f, g⟩ := hup
  rw [hcalls, URender_calls]
  simp only [record_calls, UProcessInput_calls, record_gMesh, UProcessInput_gMesh,
    record_gProgramId, UProcessInput_gProgramId, record_gWindow, UProcessInput_gWindow, hm, hn,
    replay_append, List.append_assoc, List.cons_append, List.nil_append]
  simp [replayFrom, GLState.step, MeshUploaded, a, b, c, d, e, f, g, hvao, drawInBounds,
    vertexInBounds, payloadBytes, sizeofType, sizeof_verts, sizeof_indices, sizeof_float,
    sizeof_GLushort, stride, floatsPerVertex, floatsPerColor, indices, verts]

theorem renderLoop_uploaded (hvao : env.vao ≠ 0) (fuel : Nat) :
    ∀ m : Machine, m.gMesh.vao = env.vao → m.gMesh.nIndices = 9 →
      MeshUploaded env (replay m.calls) →
      MeshUploaded env (replay (renderLoop env fuel m).2.calls) := by
  induction fuel with
  | zero => intro m _ _ h; exact h
  | succ f ih =>
    intro m hm hn h
    unfold renderLoop
    split
    · exact h
    · exact h
    · exact ih _ (by simpa using hm) (by simpa using hn) (loopBody_uploaded env m hvao hm hn h)

theorem UDestroy_replay_ok (m : Machine) :
    (replay (UDestroyShaderProgram (UDestroyMesh (m.record Op.destroyMesh)).gProgramId
      ((UDestroyMesh (m.record Op.destroyMesh)).record Op.destroyShaderProgram)).calls).ok
      = (replay m.calls).ok := by
  simp [UDestroyShaderProgram, UDestroyMesh, replay, replayFrom, List.foldl_append,
    GLState.step]

theorem main_replay_ok (fuel : Nat) (hvao : env.vao ≠ 0)
    (hvbos : env.vbos.1 ≠ 0 ∧ env.vbos.2 ≠ 0 ∧ env.vbos.1 ≠ env.vbos.2) :
    (replay (main env fuel).2.calls).ok = true := by
  have hloop := renderLoop_uploaded env hvao fuel (beforeLoop env) (beforeLoop_vao env)
    (beforeLoop_nIndices env) (beforeLoop_uploaded env hvbos)
  rw [main_eq]
  split
  · rename_i s hs
    rw [hs] at hloop
    show (replay (UDestroyShaderProgram _ _).calls).ok = true
    rw [UDestroy_replay_ok]
    exact hloop.1
  · rename_i s hs
    rw [hs] at hloop
    exact hloop.1
  · rename_i s hs
    rw [hs] at hloop
    exact hloop.1

end objects

/-! ## Bounds of the indexed draw -/

/-- Claim C10: when the names GL generates are nonzero and the two buffer
names differ, every draw call of every run of `main` stays inside the data
uploaded by the `glBufferData` calls of the run.  Replaying the call log,
each draw finds a bound vertex array object whose element buffer holds the
uploaded unsigned shorts, reads `count` indices of type `GL_UNSIGNED_SHORT`
from its byte offset inside that store, and every entry of the index array
names a vertex inside the store of every enabled attribute.  `URender` passes
`gMesh.nIndices` as the count; every draw call of the run is
`glDrawElements(GL_TRIANGLES, 9, GL_UNSIGNED_SHORT, 0)`, and 9 is at most the
18 entries uploaded and a multiple of 3.  When the loop is entered the element
buffer holds the 36 bytes of `indices` and the vertex buffer the 140 bytes of
`verts`, which is 5 vertices of 28 bytes, and every entry of `indices` is less
than 5. -/
theorem draw_stays_within_uploaded_data (env : Env) (m : Machine) (fuel : Nat)
    (hvao : env.vao ≠ 0)
    (hvbos : env.vbos.1 ≠ 0 ∧ env.vbos.2 ≠ 0 ∧ env.vbos.1 ≠ env.vbos.2) :
    (replay (main env fuel).2.calls).ok = true
      ∧ draws (URender env m).calls = draws m.calls
          ++ [(GLenum.GL_TRIANGLES, m.gMesh.nIndices, GLenum.GL_UNSIGNED_SHORT, 0)]
      ∧ (∀ d ∈ draws (main env fuel).2.calls,
          d = (GLenum.GL_TRIANGLES, 9, GLenum.GL_UNSIGNED_SHORT, 0))
      ∧ 9 ≤ indices.length ∧ 9 % 3 = 0
      ∧ (replay (beforeLoop env).calls).store env.vbos.2
          = some (36, BufferPayload.ushorts indices)
      ∧ (replay (beforeLoop env).calls).store env.vbos.1
          = some (140, BufferPayload.floats verts)
      ∧ (replay (beforeLoop env).calls).elementBuffer env.vao = env.vbos.2
      ∧ (beforeLoop env).gMesh.vao = env.vao
      ∧ indices.length = 18
      ∧ 140 / stride = 5
      ∧ (∀ i ∈ indices, i < 5) := by
  have hup := beforeLoop_uploaded env hvbos
  refine ⟨main_replay_ok env fuel hvao hvbos, ?_, ?_, by decide, by decide, hup.2.2.1, hup.2.1,
    hup.2.2.2.1, beforeLoop_vao env, rfl, by decide, by decide⟩
  · rw [URender_calls]
    simp [draws, drawArgs, List.filterMap_append]
  · have hloop := renderLoop_draws env fuel 9 (beforeLoop env) (beforeLoop_nIndices env)
      (by simp [beforeLoop_draws])
    rw [main_eq]
    split
    · rename_i s hs
      rw [UDestroy_draws]
      rw [hs] at hloop
      exact hloop
    · rename_i s hs
      rw [hs] at hloop
      exact hloop
    · rename_i s hs
      rw [hs] at hloop
      exact hloop

/-- Claim C10 in the run where Escape is down in the second frame, with the
vertex array object 1 and the buffers 1 and 2: the two draw calls of the run
stay in bounds. -/
theorem draw_stays_within_uploaded_data_witness :
    (escapeInFrame 1).vao ≠ 0
      ∧ ((escapeInFrame 1).vbos.1 ≠ 0 ∧ (escapeInFrame 1).vbos.2 ≠ 0
          ∧ (escapeInFrame 1).vbos.1 ≠ (escapeInFrame 1).vbos.2)
      ∧ (replay (main (escapeInFrame 1) 3).2.calls).ok = true
      ∧ draws (main (escapeInFrame 1) 3).2.calls
        = [(GLenum.GL_TRIANGLES, 9, GLenum.GL_UNSIGNED_SHORT, 0),
            (GLenum.GL_TRIANGLES, 9, GLenum.GL_UNSIGNED_SHORT, 0)] :=
  ⟨by decide, by decide,
    (draw_stays_within_uploaded_data (escapeInFrame 1) Machine.start 3 (by decide)
      (by decide)).1,
    by decide⟩

end AppMain
